import Mathlib

/-
Verification development for the NoteSquared frontend lesson-status
tracker and the status/output rendering components.

The definitions below are a shallow embedding of the TypeScript source:
  - the Output and LessonDetail records come from the typed REST client
    (frontend/src/services/api.ts);
  - statusConfig / StatusBadge come from the StatusBadge component;
  - outputTypeLabels / OutputCard come from the OutputCard component;
  - PROCESSING_STATUSES, startPolling, loadLesson, the poll-tick
    callback, the effect cleanup (dispose) and handleRetry come from the
    LessonPage component; timer creation and cancellation
    (window.setInterval / clearInterval) are modelled by an explicit
    list of live timers plus an allocation counter, and external fetch
    results are passed in as explicit Except values.
-/

namespace NoteSquared

/-- Output record, from the `Output` interface in services/api.ts. -/
structure Output where
  id : String
  output_type : String
  content : String
  is_edited : Bool
  is_shared : Bool
  created_at : String
deriving DecidableEq, Repr

/-- LessonDetail record, from the `Lesson` and `LessonDetail` interfaces
in services/api.ts (duration in seconds kept as an optional integer). -/
structure LessonDetail where
  id : String
  student_id : String
  student_name : String
  lesson_date : String
  status : String
  duration_seconds : Option Int
  error_message : Option String
  created_at : String
  updated_at : String
  transcript : Option String
  outputs : List Output
deriving DecidableEq, Repr

/-- The PROCESSING_STATUSES constant of LessonPage. -/
def PROCESSING_STATUSES : List String :=
  ["UPLOADED", "TRANSCRIBING", "EXTRACTING", "GENERATING"]

/-- Display data for one status, from the StatusBadge component. -/
structure StatusConfig where
  label : String
  color : String
deriving DecidableEq, Repr

/-- The statusConfig record of the StatusBadge component: a lookup from
status string to display data, none for unknown keys. -/
def statusConfig (status : String) : Option StatusConfig :=
  if status = "CREATED" then some { label := "Created", color := "bg-gray-600" }
  else if status = "UPLOADED" then some { label := "Uploaded", color := "bg-blue-600" }
  else if status = "TRANSCRIBING" then some { label := "Transcribing...", color := "bg-yellow-600" }
  else if status = "EXTRACTING" then some { label := "Analyzing...", color := "bg-yellow-600" }
  else if status = "GENERATING" then some { label := "Generating...", color := "bg-yellow-600" }
  else if status = "COMPLETED" then some { label := "Completed", color := "bg-emerald-600" }
  else if status = "FAILED" then some { label := "Failed", color := "bg-red-600" }
  else none

/-- The StatusBadge component: `statusConfig[status] || \x7b label: status,
color: 'bg-gray-600' \x7d` — lookup with a neutral fallback. -/
def StatusBadge (status : String) : StatusConfig :=
  (statusConfig status).getD { label := status, color := "bg-gray-600" }

/-- Display data for one output type, from the OutputCard component. -/
structure OutputTypeConfig where
  title : String
  icon : String
deriving DecidableEq, Repr

/-- The outputTypeLabels record of the OutputCard component. -/
def outputTypeLabels (t : String) : Option OutputTypeConfig :=
  if t = "STUDENT_RECAP" then some { title := "Student Recap", icon := "📝" }
  else if t = "PRACTICE_PLAN" then some { title := "Practice Plan", icon := "📅" }
  else if t = "PARENT_EMAIL" then some { title := "Parent Email", icon := "✉️" }
  else none

/-- The config computed by the OutputCard component:
`outputTypeLabels[output.output_type] || \x7b title: output.output_type,
icon: '📄' \x7d`. -/
def OutputCard (output : Output) : OutputTypeConfig :=
  (outputTypeLabels output.output_type).getD
    { title := output.output_type, icon := "📄" }

/-- The handleOutputUpdate callback of LessonPage:
`setLesson(\x7b ...lesson, outputs: lesson.outputs.map((o) => (o.id ===
updated.id ? updated : o)) \x7d)`. -/
def handleOutputUpdate (updated : Output) (lesson : LessonDetail) : LessonDetail :=
  { lesson with
    outputs := lesson.outputs.map (fun o => if o.id = updated.id then updated else o) }

/-- A sample generated output used as a concrete test vector. -/
def recapOutput : Output :=
  { id := "O1", output_type := "STUDENT_RECAP", content := "Recap text",
    is_edited := false, is_shared := false, created_at := "2025-01-01T10:00:00Z" }

/-- The sample output after an edit-and-save round trip (same id). -/
def updatedRecap : Output :=
  { recapOutput with content := "Recap text, revised", is_edited := true }

/-- A lesson mid-pipeline, as returned by the fetch service. -/
def transcribingLesson : LessonDetail :=
  { id := "L1", student_id := "S1", student_name := "Alice",
    lesson_date := "2025-01-01", status := "TRANSCRIBING",
    duration_seconds := some 1800, error_message := none,
    created_at := "2025-01-01T10:00:00Z", updated_at := "2025-01-01T10:01:00Z",
    transcript := none, outputs := [] }

/-- The same lesson once the pipeline completed, with its outputs. -/
def completedLesson : LessonDetail :=
  { transcribingLesson with
    status := "COMPLETED",
    transcript := some "Full transcript", outputs := [recapOutput] }

/-- The same lesson after a pipeline failure. -/
def failedLesson : LessonDetail :=
  { transcribingLesson with
    status := "FAILED", error_message := some "timeout" }

/-- The same lesson freshly re-uploaded after a retry. -/
def uploadedLesson : LessonDetail :=
  { transcribingLesson with status := "UPLOADED" }

/-- One live browser interval: its handle and its period, as created by
window.setInterval. -/
structure Timer where
  id : Nat
  intervalMs : Nat
deriving DecidableEq, Repr

/-- The interval literal passed to window.setInterval in startPolling. -/
def pollIntervalMs : Nat := 2000

/-- One call to the lesson REST client recorded during a run:
lessonsApi.get or lessonsApi.process. -/
inductive ApiCall where
  | getLesson (id : String)
  | processLesson (id : String)
deriving DecidableEq, Repr

/-- The LessonPage tracker state: the lesson / isLoading / isRetrying
useState hooks, the pollRef useRef holding the last interval handle, the
browser's set of live intervals (activeTimers, with a fresh-handle
counter), the navigation target if navigate was called, and the log of
REST calls issued. -/
structure TrackerState where
  lesson : Option LessonDetail
  isLoading : Bool
  isRetrying : Bool
  pollRef : Option Nat
  activeTimers : List Timer
  nextTimerId : Nat
  nav : Option String
  calls : List ApiCall
deriving DecidableEq, Repr

/-- The tracker state on first render of LessonPage. -/
def initialState : TrackerState :=
  { lesson := none, isLoading := true, isRetrying := false,
    pollRef := none, activeTimers := [], nextTimerId := 0,
    nav := none, calls := [] }

/-- window.clearInterval h: the live interval with handle h, if any,
stops; clearing an already-cleared handle is a no-op. -/
def clearIntervalJS (h : Nat) (s : TrackerState) : TrackerState :=
  { s with activeTimers := s.activeTimers.filter (fun t => t.id ≠ h) }

/-- window.setInterval with period ms: allocates a fresh handle and adds
a live interval; returns the handle and the new state. -/
def setIntervalJS (ms : Nat) (s : TrackerState) : Nat × TrackerState :=
  (s.nextTimerId,
   { s with
     activeTimers := s.activeTimers ++ [{ id := s.nextTimerId, intervalMs := ms }],
     nextTimerId := s.nextTimerId + 1 })

/-- The startPolling function of LessonPage: clear the interval held in
pollRef if any, then create a fresh 2000 ms interval and store its
handle in pollRef. -/
def startPolling (s : TrackerState) : TrackerState :=
  let s1 := match s.pollRef with
    | some h => clearIntervalJS h s
    | none => s
  let p := setIntervalJS pollIntervalMs s1
  { p.2 with pollRef := some p.1 }

/-- The post-load scheduling step inlined in loadLesson:
`if (PROCESSING_STATUSES.includes(data.status)) \x7b startPolling(); \x7d`
(the operation the specification names evaluateAndSchedule). -/
def evaluateAndSchedule (data : LessonDetail) (s : TrackerState) : TrackerState :=
  if data.status ∈ PROCESSING_STATUSES then startPolling s else s

/-- The loadLesson function of LessonPage. The external fetch result is
passed in: ok data models a resolved lessonsApi.get, error models a
rejected one (whose catch logs and calls navigate to the root route);
the finally block clears isLoading in both branches. -/
def loadLesson (lessonId : String) (fetch : Except Unit LessonDetail)
    (s : TrackerState) : TrackerState :=
  let s0 := { s with calls := s.calls ++ [ApiCall.getLesson lessonId] }
  match fetch with
  | Except.ok data =>
      let s1 := { s0 with lesson := some data }
      let s2 := evaluateAndSchedule data s1
      { s2 with isLoading := false }
  | Except.error _ =>
      { s0 with nav := some "/", isLoading := false }

/-- First half of the setInterval callback in startPolling: the tick
fires and issues its lessonsApi.get fetch (now in flight). -/
def pollTickStart (lessonId : String) (s : TrackerState) : TrackerState :=
  { s with calls := s.calls ++ [ApiCall.getLesson lessonId] }

/-- Second half of the setInterval callback in startPolling, run when
the in-flight fetch settles: on success setLesson(data), and if the
status has left the processing set, clear the interval held in pollRef
and null it; on failure only console.error runs. The callback applies
setLesson unconditionally — it has no liveness check on pollRef. -/
def pollTickComplete (fetch : Except Unit LessonDetail)
    (s : TrackerState) : TrackerState :=
  match fetch with
  | Except.ok data =>
      let s1 := { s with lesson := some data }
      if data.status ∈ PROCESSING_STATUSES then s1
      else
        match s1.pollRef with
        | some h => { clearIntervalJS h s1 with pollRef := none }
        | none => s1
  | Except.error _ => s

/-- One whole poll tick: fire, fetch, settle. -/
def pollTick (lessonId : String) (fetch : Except Unit LessonDetail)
    (s : TrackerState) : TrackerState :=
  pollTickComplete fetch (pollTickStart lessonId s)

/-- The useEffect cleanup of LessonPage:
`if (pollRef.current) clearInterval(pollRef.current)` (pollRef itself is
not nulled). -/
def dispose (s : TrackerState) : TrackerState :=
  match s.pollRef with
  | some h => clearIntervalJS h s
  | none => s

/-- The handleRetry function of LessonPage: set the busy flag, await
lessonsApi.process (on rejection only console.error runs), then await
loadLesson (which never rejects — it catches internally) and call
startPolling unconditionally; the finally block clears the busy flag. -/
def handleRetry (lessonId : String) (processRes : Except Unit Unit)
    (reloadFetch : Except Unit LessonDetail) (s : TrackerState) : TrackerState :=
  let s0 := { s with isRetrying := true }
  let s1 := { s0 with calls := s0.calls ++ [ApiCall.processLesson lessonId] }
  match processRes with
  | Except.error _ => { s1 with isRetrying := false }
  | Except.ok _ =>
      let s2 := loadLesson lessonId reloadFetch s1
      let s3 := startPolling s2
      { s3 with isRetrying := false }

/-- Timer-bookkeeping invariant of a tracker state: at most one live
interval; every live interval is the one recorded in pollRef and has
the 2000 ms period; the recorded handle is below the allocation
counter. -/
def Inv (s : TrackerState) : Prop :=
  s.activeTimers.length ≤ 1 ∧
  (∀ t ∈ s.activeTimers, s.pollRef = some t.id ∧ t.intervalMs = pollIntervalMs) ∧
  s.pollRef.all (fun h => h < s.nextTimerId) = true

/-- A reachable-looking state with one live 2000 ms poll timer, holding
the mid-pipeline lesson: the result of loadLesson on transcribingLesson
from the initial state. -/
def exPollingState : TrackerState :=
  { lesson := some transcribingLesson, isLoading := false,
    isRetrying := false, pollRef := some 0,
    activeTimers := [{ id := 0, intervalMs := pollIntervalMs }],
    nextTimerId := 1, nav := none,
    calls := [ApiCall.getLesson "L1"] }

/-- Helper: mapping the replace-by-id function over a list with no
matching id leaves the list unchanged. -/
lemma map_replace_no_match (u : Output) (l : List Output)
    (h : ∀ o ∈ l, o.id ≠ u.id) :
    l.map (fun o => if o.id = u.id then u else o) = l := by
  induction l with
  | nil => rfl
  | cons a t ih =>
    simp only [List.map_cons]
    rw [if_neg (h a (List.mem_cons_self a t)),
      ih (fun o ho => h o (List.mem_cons_of_mem a ho))]

/-- Helper: a list of length at most one is empty or a singleton. -/
lemma timers_cases (l : List Timer) (h : l.length ≤ 1) :
    l = [] ∨ ∃ t, l = [t] := by
  match l with
  | [] => exact Or.inl rfl
  | [t] => exact Or.inr ⟨t, rfl⟩
  | t1 :: t2 :: r => simp at h

/-- Helper: under the invariant, startPolling leaves exactly the one
freshly allocated 2000 ms interval live. -/
lemma startPolling_activeTimers (s : TrackerState) (hInv : Inv s) :
    (startPolling s).activeTimers
      = [{ id := s.nextTimerId, intervalMs := pollIntervalMs }] := by
  obtain ⟨hlen, hmem, -⟩ := hInv
  rcases hp : s.pollRef with _ | h
  · rcases timers_cases s.activeTimers hlen with hnil | ⟨t, ht⟩
    · simp [startPolling, setIntervalJS, hp, hnil]
    · have := hmem t (by rw [ht]; exact List.mem_singleton_self t)
      rw [hp] at this
      exact absurd this.1 (by simp)
  · rcases timers_cases s.activeTimers hlen with hnil | ⟨t, ht⟩
    · simp [startPolling, setIntervalJS, clearIntervalJS, hp, hnil]
    · have hid := (hmem t (by rw [ht]; exact List.mem_singleton_self t)).1
      rw [hp] at hid
      have hid' : t.id = h := by injection hid.symm
      simp [startPolling, setIntervalJS, clearIntervalJS, hp, ht, hid']

/-- Helper: startPolling stores the fresh handle in pollRef. -/
lemma startPolling_pollRef (s : TrackerState) :
    (startPolling s).pollRef = some s.nextTimerId := by
  rcases hp : s.pollRef with _ | h <;>
    simp [startPolling, setIntervalJS, clearIntervalJS, hp]

/-- Helper: startPolling bumps the allocation counter by one. -/
lemma startPolling_nextTimerId (s : TrackerState) :
    (startPolling s).nextTimerId = s.nextTimerId + 1 := by
  rcases hp : s.pollRef with _ | h <;>
    simp [startPolling, setIntervalJS, clearIntervalJS, hp]

/-- Helper: startPolling leaves the non-timer fields alone. -/
lemma startPolling_frame (s : TrackerState) :
    (startPolling s).lesson = s.lesson ∧ (startPolling s).calls = s.calls ∧
    (startPolling s).nav = s.nav ∧ (startPolling s).isLoading = s.isLoading ∧
    (startPolling s).isRetrying = s.isRetrying := by
  rcases hp : s.pollRef with _ | h <;>
    simp [startPolling, setIntervalJS, clearIntervalJS, hp]

/-- Helper: the invariant only depends on the timer bookkeeping. -/
lemma Inv_congr (s s' : TrackerState)
    (ha : s'.activeTimers = s.activeTimers) (hp : s'.pollRef = s.pollRef)
    (hn : s'.nextTimerId = s.nextTimerId) (hInv : Inv s) : Inv s' := by
  obtain ⟨h1, h2, h3⟩ := hInv
  exact ⟨by rw [ha]; exact h1,
    by rw [ha, hp]; exact h2,
    by rw [hp, hn]; exact h3⟩

/-- Helper: startPolling reestablishes the invariant. -/
lemma Inv_startPolling (s : TrackerState) (hInv : Inv s) :
    Inv (startPolling s) := by
  refine ⟨?_, ?_, ?_⟩
  · rw [startPolling_activeTimers s hInv]
    simp
  · intro t ht
    rw [startPolling_activeTimers s hInv] at ht
    have : t = { id := s.nextTimerId, intervalMs := pollIntervalMs } := by
      simpa using ht
    subst this
    rw [startPolling_pollRef]
    exact ⟨rfl, rfl⟩
  · rw [startPolling_pollRef, startPolling_nextTimerId]
    simp

/-- Helper: evaluateAndSchedule preserves the invariant. -/
lemma Inv_evaluateAndSchedule (data : LessonDetail) (s : TrackerState)
    (hInv : Inv s) : Inv (evaluateAndSchedule data s) := by
  unfold evaluateAndSchedule
  split
  · exact Inv_startPolling s hInv
  · exact hInv

/-- Helper: loadLesson preserves the invariant. -/
lemma Inv_loadLesson (lessonId : String) (fetch : Except Unit LessonDetail)
    (s : TrackerState) (hInv : Inv s) : Inv (loadLesson lessonId fetch s) := by
  match fetch with
  | Except.ok data =>
      refine Inv_congr _ (evaluateAndSchedule data
        { s with
          calls := s.calls ++ [ApiCall.getLesson lessonId],
          lesson := some data }) rfl rfl rfl ?_
      exact Inv_evaluateAndSchedule data _ (Inv_congr _ s rfl rfl rfl hInv)
  | Except.error _ => exact Inv_congr _ s rfl rfl rfl hInv

/-- Helper: the initial state satisfies the invariant. -/
lemma Inv_initialState : Inv initialState := by
  unfold Inv
  decide

/-- Helper: the concrete polling state satisfies the invariant. -/
lemma Inv_exPollingState : Inv exPollingState := by
  unfold Inv
  decide

/-- Helper: startPolling issues no REST call. -/
lemma startPolling_calls (s : TrackerState) :
    (startPolling s).calls = s.calls := by
  rcases hp : s.pollRef with _ | h <;>
    simp [startPolling, setIntervalJS, clearIntervalJS, hp]

/-- Helper: the post-load scheduling step issues no REST call. -/
lemma evaluateAndSchedule_calls (data : LessonDetail) (s : TrackerState) :
    (evaluateAndSchedule data s).calls = s.calls := by
  unfold evaluateAndSchedule
  split
  · exact startPolling_calls s
  · rfl

/-- Helper: loadLesson issues exactly one lessonsApi.get call. -/
lemma loadLesson_calls (lessonId : String) (fetch : Except Unit LessonDetail)
    (s : TrackerState) :
    (loadLesson lessonId fetch s).calls = s.calls ++ [ApiCall.getLesson lessonId] := by
  match fetch with
  | Except.ok data => simp [loadLesson, evaluateAndSchedule_calls]
  | Except.error _ => rfl

/-- Claim C1: with a lesson whose status is in the processing set,
evaluateAndSchedule (startPolling) first cancels the prior timer (no
surviving live interval carries the handle previously held in pollRef)
and leaves exactly one active timer; invoking it twice in succession
still leaves exactly one active timer, never two. -/
theorem evaluateAndSchedule_single_timer (s : TrackerState) (data : LessonDetail)
    (hInv : Inv s) (hproc : data.status ∈ PROCESSING_STATUSES) :
    (evaluateAndSchedule data s).activeTimers.length = 1 ∧
    (∀ h t, s.pollRef = some h →
      t ∈ (evaluateAndSchedule data s).activeTimers → t.id ≠ h) ∧
    (evaluateAndSchedule data (evaluateAndSchedule data s)).activeTimers.length = 1 := by
  have he : evaluateAndSchedule data s = startPolling s := by
    unfold evaluateAndSchedule
    rw [if_pos hproc]
  refine ⟨?_, ?_, ?_⟩
  · rw [he, startPolling_activeTimers s hInv]
    rfl
  · intro h t hpr ht
    rw [he, startPolling_activeTimers s hInv] at ht
    have ht' : t = { id := s.nextTimerId, intervalMs := pollIntervalMs } := by
      simpa using ht
    subst ht'
    have hfresh := hInv.2.2
    rw [hpr] at hfresh
    have hlt : h < s.nextTimerId := by simpa using hfresh
    simp only []
    omega
  · have hInv2 : Inv (evaluateAndSchedule data s) :=
      Inv_evaluateAndSchedule data s hInv
    have he2 : evaluateAndSchedule data (evaluateAndSchedule data s)
        = startPolling (evaluateAndSchedule data s) := by
      unfold evaluateAndSchedule
      rw [if_pos hproc]
    rw [he2, startPolling_activeTimers _ hInv2]
    rfl

/-- Claim C1 witness: from the concrete polling state, one call and two
calls of evaluateAndSchedule each leave exactly one active timer. -/
theorem evaluateAndSchedule_single_timer_witness :
    (evaluateAndSchedule transcribingLesson exPollingState).activeTimers.length = 1 ∧
    (evaluateAndSchedule transcribingLesson
      (evaluateAndSchedule transcribingLesson exPollingState)).activeTimers.length = 1 := by
  have h := evaluateAndSchedule_single_timer exPollingState transcribingLesson
    Inv_exPollingState (by decide)
  exact ⟨h.1, h.2.2⟩

/-- Claim C2: the code violates the ignore-after-cancel rule. From the
concrete polling state, a tick fires and its fetch goes in flight
(pollTickStart); the effect cleanup (dispose) then cancels the timer,
leaving zero live intervals; yet when the in-flight fetch completes,
the callback still applies setLesson — the held lesson changes from the
transcribing lesson to the completed one, because the tick callback has
no liveness check tied to the timer handle. -/
theorem disposed_tick_completion_mutates :
    (dispose (pollTickStart "L1" exPollingState)).activeTimers = [] ∧
    (dispose (pollTickStart "L1" exPollingState)).lesson = some transcribingLesson ∧
    (pollTickComplete (Except.ok completedLesson)
      (dispose (pollTickStart "L1" exPollingState))).lesson = some completedLesson ∧
    completedLesson ≠ transcribingLesson := by
  refine ⟨by decide, by decide, by decide, by decide⟩

/-- Claim C3 (amended): for a terminal lesson (COMPLETED or FAILED) the
post-load scheduling step of loadLesson starts no timer and leaves the
whole tracker state unchanged — in particular, if no timer was active
beforehand, zero timers are active afterwards. It does not cancel a
pre-existing active timer. -/
theorem evaluateAndSchedule_terminal_noop (s : TrackerState) (data : LessonDetail)
    (hterm : data.status = "COMPLETED" ∨ data.status = "FAILED") :
    evaluateAndSchedule data s = s ∧
    (s.activeTimers = [] → (evaluateAndSchedule data s).activeTimers = []) := by
  have hnm : data.status ∉ PROCESSING_STATUSES := by
    rcases hterm with h | h <;> rw [h] <;> decide
  have he : evaluateAndSchedule data s = s := by
    unfold evaluateAndSchedule
    rw [if_neg hnm]
  exact ⟨he, fun h0 => by rw [he]; exact h0⟩

/-- Claim C3 witness: evaluateAndSchedule on the completed lesson from
the timer-free initial state leaves the state (hence zero timers)
unchanged. -/
theorem evaluateAndSchedule_terminal_noop_witness :
    evaluateAndSchedule completedLesson initialState = initialState :=
  (evaluateAndSchedule_terminal_noop initialState completedLesson (Or.inl (by decide))).1

/-- Claim C3 counterexample: with one live timer, evaluateAndSchedule on
a COMPLETED lesson leaves one active timer, not zero — the terminal
branch cancels nothing. -/
theorem evaluateAndSchedule_terminal_counterexample :
    completedLesson.status = "COMPLETED" ∧
    exPollingState.activeTimers.length = 1 ∧
    (evaluateAndSchedule completedLesson exPollingState).activeTimers.length = 1 := by
  refine ⟨by decide, by decide, by decide⟩

/-- Claim C4: a successful pollTick issues one lessonsApi.get and
replaces the held lesson with the fetched result; if the refreshed
status has left the processing set the tick cancels its own timer
(zero live intervals remain and pollRef is nulled), otherwise the
timers are untouched; the poll period is the fixed 2000 ms constant. -/
theorem pollTick_success_spec (s : TrackerState) (lessonId : String)
    (data : LessonDetail) (hInv : Inv s) :
    (pollTick lessonId (Except.ok data) s).lesson = some data ∧
    (pollTick lessonId (Except.ok data) s).calls
      = s.calls ++ [ApiCall.getLesson lessonId] ∧
    (data.status ∉ PROCESSING_STATUSES →
      (pollTick lessonId (Except.ok data) s).activeTimers = [] ∧
      (pollTick lessonId (Except.ok data) s).pollRef = none) ∧
    (data.status ∈ PROCESSING_STATUSES →
      (pollTick lessonId (Except.ok data) s).activeTimers = s.activeTimers) ∧
    pollIntervalMs = 2000 := by
  obtain ⟨hlen, hmem, hfresh⟩ := hInv
  refine ⟨?_, ?_, ?_, ?_, rfl⟩
  · by_cases hd : data.status ∈ PROCESSING_STATUSES
    · simp [pollTick, pollTickStart, pollTickComplete, hd]
    · rcases hp : s.pollRef with _ | h <;>
        simp [pollTick, pollTickStart, pollTickComplete, clearIntervalJS, hd, hp]
  · by_cases hd : data.status ∈ PROCESSING_STATUSES
    · simp [pollTick, pollTickStart, pollTickComplete, hd]
    · rcases hp : s.pollRef with _ | h <;>
        simp [pollTick, pollTickStart, pollTickComplete, clearIntervalJS, hd, hp]
  · intro hd
    rcases hp : s.pollRef with _ | h
    · rcases timers_cases s.activeTimers hlen with hnil | ⟨t, ht⟩
      · constructor <;>
          simp [pollTick, pollTickStart, pollTickComplete, hd, hp, hnil]
      · have := (hmem t (by rw [ht]; exact List.mem_singleton_self t)).1
        rw [hp] at this
        exact absurd this (by simp)
    · rcases timers_cases s.activeTimers hlen with hnil | ⟨t, ht⟩
      · constructor <;>
          simp [pollTick, pollTickStart, pollTickComplete, clearIntervalJS,
            hd, hp, hnil]
      · have hid := (hmem t (by rw [ht]; exact List.mem_singleton_self t)).1
        rw [hp] at hid
        have hid' : t.id = h := by injection hid.symm
        constructor <;>
          simp [pollTick, pollTickStart, pollTickComplete, clearIntervalJS,
            hd, hp, ht, hid']
  · intro hd
    simp [pollTick, pollTickStart, pollTickComplete, hd]

/-- Claim C4 witness: from the concrete polling state, a tick that
fetches the COMPLETED lesson replaces the held lesson and cancels its
own timer. -/
theorem pollTick_success_spec_witness :
    (pollTick "L1" (Except.ok completedLesson) exPollingState).lesson
      = some completedLesson ∧
    (pollTick "L1" (Except.ok completedLesson) exPollingState).activeTimers = [] := by
  have h := pollTick_success_spec exPollingState "L1" completedLesson Inv_exPollingState
  exact ⟨h.1, (h.2.2.1 (by decide)).1⟩

/-- Claim C5: a pollTick whose fetch fails swallows the error: the held
lesson is unchanged, the live intervals and pollRef are untouched (so
the timer is not cancelled and the next tick still fires on the fixed
2000 ms period), and only the lessonsApi.get call is recorded. -/
theorem pollTick_failure_spec (s : TrackerState) (lessonId : String) :
    (pollTick lessonId (Except.error ()) s).lesson = s.lesson ∧
    (pollTick lessonId (Except.error ()) s).activeTimers = s.activeTimers ∧
    (pollTick lessonId (Except.error ()) s).pollRef = s.pollRef ∧
    (pollTick lessonId (Except.error ()) s).calls
      = s.calls ++ [ApiCall.getLesson lessonId] ∧
    pollIntervalMs = 2000 :=
  ⟨rfl, rfl, rfl, rfl, rfl⟩

/-- Claim C6: a loadLesson whose fetch fails navigates to the default
view (the root route), leaves the held lesson and the timers untouched
(no poll timer is scheduled), and issues exactly one lessonsApi.get —
no retry of the load. -/
theorem loadLesson_failure_spec (s : TrackerState) (lessonId : String) :
    (loadLesson lessonId (Except.error ()) s).nav = some "/" ∧
    (loadLesson lessonId (Except.error ()) s).lesson = s.lesson ∧
    (loadLesson lessonId (Except.error ()) s).activeTimers = s.activeTimers ∧
    (loadLesson lessonId (Except.error ()) s).pollRef = s.pollRef ∧
    (loadLesson lessonId (Except.error ()) s).calls
      = s.calls ++ [ApiCall.getLesson lessonId] :=
  ⟨rfl, rfl, rfl, rfl, rfl⟩

/-- Helper: a load returning a lesson with a processing status leaves
exactly one active timer (the post-load step starts polling). -/
lemma loadLesson_processing_timer (lessonId : String) (data : LessonDetail)
    (s : TrackerState) (hInv : Inv s)
    (hproc : data.status ∈ PROCESSING_STATUSES) :
    (loadLesson lessonId (Except.ok data) s).activeTimers.length = 1 := by
  have h1 : Inv ({ s with
      calls := s.calls ++ [ApiCall.getLesson lessonId],
      lesson := some data }) := Inv_congr _ s rfl rfl rfl hInv
  have h2 : (evaluateAndSchedule data { s with
      calls := s.calls ++ [ApiCall.getLesson lessonId],
      lesson := some data }).activeTimers.length = 1 := by
    unfold evaluateAndSchedule
    rw [if_pos hproc, startPolling_activeTimers _ h1]
    rfl
  exact h2

/-- Claim C7: a load that returns a FAILED lesson schedules no timer;
handleRetry calls lessonsApi.process first and lessonsApi.get second,
and when the freshly loaded status is UPLOADED — a processing status —
the reload resumes polling and the retry ends with exactly one active
timer. -/
theorem handleRetry_spec (s : TrackerState) (lessonId : String)
    (dataF dataU : LessonDetail) (hInv : Inv s)
    (hF : dataF.status = "FAILED") (hU : dataU.status = "UPLOADED") :
    (loadLesson lessonId (Except.ok dataF) s).activeTimers = s.activeTimers ∧
    (loadLesson lessonId (Except.ok dataU) s).activeTimers.length = 1 ∧
    (handleRetry lessonId (Except.ok ()) (Except.ok dataU) s).calls
      = s.calls ++ [ApiCall.processLesson lessonId, ApiCall.getLesson lessonId] ∧
    (handleRetry lessonId (Except.ok ()) (Except.ok dataU) s).activeTimers.length
      = 1 := by
  have hnF : dataF.status ∉ PROCESSING_STATUSES := by rw [hF]; decide
  have hUp : dataU.status ∈ PROCESSING_STATUSES := by rw [hU]; decide
  refine ⟨?_, loadLesson_processing_timer lessonId dataU s hInv hUp, ?_, ?_⟩
  · simp [loadLesson, evaluateAndSchedule, hnF]
  · simp [handleRetry, loadLesson_calls, startPolling_calls]
  · have key : ∀ s' : TrackerState, Inv s' →
        ({ startPolling s' with isRetrying := false } : TrackerState).activeTimers.length = 1 := by
      intro s' h'
      show (startPolling s').activeTimers.length = 1
      rw [startPolling_activeTimers s' h']
      rfl
    have hInv1 : Inv ({ s with
        isRetrying := true,
        calls := s.calls ++ [ApiCall.processLesson lessonId] }) :=
      Inv_congr _ s rfl rfl rfl hInv
    have hInv2 := Inv_loadLesson lessonId (Except.ok dataU) _ hInv1
    exact key _ hInv2

/-- Claim C7 witness: from the concrete state holding the FAILED lesson
with no timer, the reload keeps zero timers, and a retry whose reload
returns UPLOADED ends with exactly one active timer. -/
theorem handleRetry_spec_witness :
    (loadLesson "L1" (Except.ok failedLesson)
      { initialState with lesson := some failedLesson }).activeTimers = [] ∧
    (handleRetry "L1" (Except.ok ()) (Except.ok uploadedLesson)
      { initialState with lesson := some failedLesson }).activeTimers.length = 1 := by
  have h := handleRetry_spec { initialState with lesson := some failedLesson }
    "L1" failedLesson uploadedLesson (by unfold Inv; decide) (by decide) (by decide)
  exact ⟨h.1, h.2.2.2⟩

/-- Claim C8: the status badge is a total function: each of the seven
enumeration values maps to its configured label and color, and any
unrecognized status renders as-is — the raw string becomes the label —
with the neutral gray presentation. -/
theorem statusBadge_spec :
    StatusBadge "CREATED" = { label := "Created", color := "bg-gray-600" } ∧
    StatusBadge "UPLOADED" = { label := "Uploaded", color := "bg-blue-600" } ∧
    StatusBadge "TRANSCRIBING" = { label := "Transcribing...", color := "bg-yellow-600" } ∧
    StatusBadge "EXTRACTING" = { label := "Analyzing...", color := "bg-yellow-600" } ∧
    StatusBadge "GENERATING" = { label := "Generating...", color := "bg-yellow-600" } ∧
    StatusBadge "COMPLETED" = { label := "Completed", color := "bg-emerald-600" } ∧
    StatusBadge "FAILED" = { label := "Failed", color := "bg-red-600" } ∧
    ∀ status : String,
      status ∉ ["CREATED", "UPLOADED", "TRANSCRIBING", "EXTRACTING",
        "GENERATING", "COMPLETED", "FAILED"] →
      StatusBadge status = { label := status, color := "bg-gray-600" } := by
  refine ⟨by decide, by decide, by decide, by decide, by decide, by decide,
    by decide, ?_⟩
  intro status hs
  simp only [List.mem_cons, List.not_mem_nil, or_false, not_or] at hs
  obtain ⟨h1, h2, h3, h4, h5, h6, h7⟩ := hs
  simp [StatusBadge, statusConfig, h1, h2, h3, h4, h5, h6, h7]

/-- Claim C8 witness: an unrecognized status string renders as-is with
the neutral gray presentation. -/
theorem statusBadge_spec_witness :
    StatusBadge "ARCHIVED" = { label := "ARCHIVED", color := "bg-gray-600" } :=
  statusBadge_spec.2.2.2.2.2.2.2 "ARCHIVED" (by decide)

/-- Claim C9: handleOutputUpdate preserves the length (and order) of
the outputs list; position by position, the output whose id equals the
updated output's id is replaced by it and every other output is kept;
every other field of the lesson is unchanged; and when no output
matches, the outputs list is unchanged. -/
theorem handleOutputUpdate_spec (updated : Output) (lesson : LessonDetail) :
    (handleOutputUpdate updated lesson).outputs.length = lesson.outputs.length ∧
    (∀ (i : Nat) (o : Output), lesson.outputs[i]? = some o →
      (handleOutputUpdate updated lesson).outputs[i]?
        = some (if o.id = updated.id then updated else o)) ∧
    (handleOutputUpdate updated lesson).id = lesson.id ∧
    (handleOutputUpdate updated lesson).student_id = lesson.student_id ∧
    (handleOutputUpdate updated lesson).student_name = lesson.student_name ∧
    (handleOutputUpdate updated lesson).lesson_date = lesson.lesson_date ∧
    (handleOutputUpdate updated lesson).status = lesson.status ∧
    (handleOutputUpdate updated lesson).duration_seconds = lesson.duration_seconds ∧
    (handleOutputUpdate updated lesson).error_message = lesson.error_message ∧
    (handleOutputUpdate updated lesson).created_at = lesson.created_at ∧
    (handleOutputUpdate updated lesson).updated_at = lesson.updated_at ∧
    (handleOutputUpdate updated lesson).transcript = lesson.transcript ∧
    ((∀ o ∈ lesson.outputs, o.id ≠ updated.id) →
      (handleOutputUpdate updated lesson).outputs = lesson.outputs) := by
  refine ⟨by simp [handleOutputUpdate], ?_, rfl, rfl, rfl, rfl, rfl, rfl, rfl,
    rfl, rfl, rfl, ?_⟩
  · intro i o ho
    simp [handleOutputUpdate, List.getElem?_map, ho]
  · intro hnone
    show lesson.outputs.map (fun o => if o.id = updated.id then updated else o)
      = lesson.outputs
    exact map_replace_no_match updated lesson.outputs hnone

/-- Claim C9 witness: updating the recap output of the completed lesson
replaces exactly the matching output in place. -/
theorem handleOutputUpdate_spec_witness :
    (handleOutputUpdate updatedRecap completedLesson).outputs[0]? = some updatedRecap := by
  have h := (handleOutputUpdate_spec updatedRecap completedLesson).2.1 0 recapOutput
    (by decide)
  rw [h]
  decide

/-- Claim C10: the output card config is a total function: each of the
three known output types maps to its configured title and icon, and any
other output_type falls back to the raw tag as title with the default
document icon. -/
theorem outputCard_spec :
    (∀ o : Output, o.output_type = "STUDENT_RECAP" →
      OutputCard o = { title := "Student Recap", icon := "📝" }) ∧
    (∀ o : Output, o.output_type = "PRACTICE_PLAN" →
      OutputCard o = { title := "Practice Plan", icon := "📅" }) ∧
    (∀ o : Output, o.output_type = "PARENT_EMAIL" →
      OutputCard o = { title := "Parent Email", icon := "✉️" }) ∧
    (∀ o : Output,
      o.output_type ∉ ["STUDENT_RECAP", "PRACTICE_PLAN", "PARENT_EMAIL"] →
      OutputCard o = { title := o.output_type, icon := "📄" }) := by
  refine ⟨?_, ?_, ?_, ?_⟩ <;> intro o ho
  · simp [OutputCard, outputTypeLabels, ho]
  · simp [OutputCard, outputTypeLabels, ho]
  · simp [OutputCard, outputTypeLabels, ho]
  · simp only [List.mem_cons, List.not_mem_nil, or_false, not_or] at ho
    obtain ⟨h1, h2, h3⟩ := ho
    simp [OutputCard, outputTypeLabels, h1, h2, h3]

/-- Claim C10 witness: the recap output carries the configured recap
title and icon, and an unknown tag falls back to the raw tag. -/
theorem outputCard_spec_witness :
    OutputCard recapOutput = { title := "Student Recap", icon := "📝" } ∧
    OutputCard { recapOutput with output_type := "QUIZ" }
      = { title := "QUIZ", icon := "📄" } :=
  ⟨outputCard_spec.1 recapOutput (by decide),
   outputCard_spec.2.2.2 { recapOutput with output_type := "QUIZ" } (by decide)⟩

end NoteSquared
